import Mathlib

/-!
Shallow embedding of `src/main.rs` of the web3-rust-cli repository: a CLI
that fetches the SOL/USD price from three public HTTP APIs (CoinGecko,
CoinCap, Binance) in a fixed fallback order.

Modelling conventions:
* `f64` prices are modelled as exact rationals (`ℚ`).  The program performs
  no floating-point arithmetic on prices: it only parses decimal literals
  from JSON bodies and formats the result with two decimals, and for every
  value appearing in a claim the nearest-double rounding of the parse does
  not change any stated property, so the exact-rational model is faithful.
  The non-finite values `inf`/`nan` accepted by the Rust `f64::from_str` have
  no rational counterpart and are treated as unparseable by the model; no
  claim concerns them.
* The network is an environment: a function from the request URL to the
  outcome of the single blocking GET the code performs at that URL.  A
  response body that was read successfully is represented by its JSON parse
  result (`BodyText`), standing for the body text.
* Each `Err(... )` site of the Rust code becomes one constructor of
  `FetchError`; `FetchError.message` renders the same human-readable text
  the boxed error displays (for an HTTP status error reqwest displays the
  numeric code followed by the canonical reason phrase; the model keeps the
  numeric code, which is what the claims are about).
-/

instance {ε α : Type} [DecidableEq ε] [DecidableEq α] : DecidableEq (Except ε α) := fun a b =>
  match a, b with
  | .ok x, .ok y =>
      if h : x = y then .isTrue (by rw [h]) else .isFalse (fun hc => by cases hc; exact h rfl)
  | .ok _, .error _ => .isFalse (fun hc => by cases hc)
  | .error _, .ok _ => .isFalse (fun hc => by cases hc)
  | .error x, .error y =>
      if h : x = y then .isTrue (by rw [h]) else .isFalse (fun hc => by cases hc; exact h rfl)

/-- JSON values, as `serde_json` parses a body text.  Numbers are kept as
exact rationals (serde converts them to `f64`). -/
inductive Json where
  | null : Json
  | bool (b : Bool) : Json
  | num (q : ℚ) : Json
  | str (s : String) : Json
  | arr (elems : List Json) : Json
  | obj (fields : List (String × Json)) : Json

/-- The text of a successfully read response body, represented by its JSON
parse result: either not valid JSON (with the serde parse-error text) or a
parsed `Json` value. -/
inductive BodyText where
  | notJson (desc : String) : BodyText
  | jsonOf (j : Json) : BodyText

/-- Outcome of one blocking `client.get(url).send()` followed by
`resp.text()`: either `send()` itself fails, or a response arrives with a
status code and a body-read result (`resp.text()` can also fail, the
`.error` case of the body). -/
inductive HttpOutcome where
  | sendErr (msg : String) : HttpOutcome
  | response (status : Nat) (body : Except String BodyText) : HttpOutcome

/-- One constructor per `Err(...)`/`?` site of the Rust source.  All errors
are `Box<dyn Error>` strings at runtime; the constructors record which code
path produced the string. -/
inductive FetchError where
  /-- Transport error: `client.get(url).send()?` failed. -/
  | transport (msg : String) : FetchError
  /-- Body-read error: `resp.text()?` failed while reading the body. -/
  | bodyRead (msg : String) : FetchError
  /-- Status error, the `format!` line naming the API, for a non-success status. -/
  | apiStatus (source : String) (status : Nat) : FetchError
  /-- Deserialization error: `serde_json::from_str(&text)?` failed (malformed body or schema mismatch). -/
  | jsonError (msg : String) : FetchError
  /-- Missing-price error: `.ok_or("Price not found")?` on a missing "usd" entry (CoinGecko only). -/
  | priceNotFound : FetchError
  /-- Numeric parse error: `.parse::<f64>()?` failed; the Rust `ParseFloatError`
  displays the constant text "invalid float literal", carried here verbatim. -/
  | numFormat (msg : String) : FetchError
  /-- Client build error: `reqwest::blocking::Client::builder()...build()?` failed. -/
  | clientSetup (msg : String) : FetchError
  /-- the final error of `fetch_sol_price` when every adapter failed. -/
  | allFailed : FetchError
deriving DecidableEq

/-- The human-readable text of each error, as the Rust program displays it
(the status line of `apiStatus` keeps the numeric code; reqwest would
append the canonical reason phrase after it). -/
def FetchError.message : FetchError → String
  | .transport msg => msg
  | .bodyRead msg => msg
  | .apiStatus source status => source ++ " API error: " ++ toString status
  | .jsonError msg => msg
  | .priceNotFound => "Price not found"
  | .numFormat msg => msg
  | .clientSetup msg => msg
  | .allFailed =>
      "❌ All API sources failed. Please check your internet connection or try again later."

/-- Success statuses as `reqwest::StatusCode::is_success` defines them: `200..=299`. -/
def statusIsSuccess (status : Nat) : Bool :=
  200 ≤ status && status ≤ 299

/-- Numeric value of a digit list (most significant first). -/
def natOfDigits (ds : List Char) : Nat :=
  ds.foldl (fun acc c => acc * 10 + (c.toNat - 48)) 0

/-- Model of `str.parse::<f64>()` of the Rust standard library, on the exact-rational
model: optional sign, then digits, an optional fraction, and an optional
exponent, with the mantissa non-empty.  Parse failure carries the constant
`ParseFloatError` display text "invalid float literal".  Rust additionally
accepts `inf`/`infinity`/`nan`, which have no rational value and so are
rejected by the model (no claim involves them). -/
def parseF64 (s : String) : Except String ℚ :=
  let err : Except String ℚ := .error "invalid float literal"
  let core : List Char → ℚ → Except String ℚ := fun cs sign =>
    let d1 := cs.takeWhile Char.isDigit
    let rest := cs.dropWhile Char.isDigit
    let step2 : Option (List Char) × List Char :=
      match rest with
      | '.' :: t => (some (t.takeWhile Char.isDigit), t.dropWhile Char.isDigit)
      | r => (none, r)
    let d2 := step2.1
    let rest2 := step2.2
    if d1.isEmpty && (match d2 with | some d => d.isEmpty | none => true) then err
    else
      let mant : ℚ :=
        (natOfDigits d1 : ℚ) +
          (match d2 with
           | none => 0
           | some d => (natOfDigits d : ℚ) / (10 : ℚ) ^ d.length)
      match rest2 with
      | [] => .ok (sign * mant)
      | e :: t =>
        if e = 'e' || e = 'E' then
          let step3 : ℤ × List Char :=
            match t with
            | '+' :: u => (1, u)
            | '-' :: u => (-1, u)
            | u => (1, u)
          let ed := step3.2.takeWhile Char.isDigit
          let rest3 := step3.2.dropWhile Char.isDigit
          if ed.isEmpty || !rest3.isEmpty then err
          else .ok (sign * mant * (10 : ℚ) ^ (step3.1 * (natOfDigits ed : ℤ)))
        else err
  match s.toList with
  | [] => err
  | '+' :: t => core t 1
  | '-' :: t => core t (-1)
  | cs => core cs 1

/-- Parse stage of `serde_json::from_str` on the modelled body text. -/
def jsonOfBody : BodyText → Except String Json
  | .notJson desc => .error desc
  | .jsonOf j => .ok j

/-- serde deserialization of a `HashMap<String, f64>` from a JSON value:
the value must be an object and every field value a number. -/
def decodeUsdMap : Json → Except String (List (String × ℚ))
  | .obj fields =>
      fields.mapM (fun kv =>
        match kv.2 with
        | .num q => Except.ok (kv.1, q)
        | _ => Except.error "invalid type: expected f64")
  | _ => .error "invalid type: expected a map"

/-- serde deserialization of `struct CoinGeckoPrices { solana: HashMap<String, f64> }`:
a JSON object with a `solana` field; a missing field is the serde
missing-field error, not the adapter message "Price not found". -/
def decodeCoinGeckoPrices (j : Json) : Except String (List (String × ℚ)) :=
  match j with
  | .obj fields =>
      match fields.lookup "solana" with
      | none => .error "missing field `solana`"
      | some v => decodeUsdMap v
  | _ => .error "invalid type: expected struct CoinGeckoPrices"

/-- Model of `HashMap::get`: with duplicate JSON keys serde keeps the last
occurrence, hence lookup on the reversed association list. -/
def hashMapGet (m : List (String × ℚ)) (k : String) : Option ℚ :=
  m.reverse.lookup k

/-- serde deserialization of
`struct CoinCapResponse { data: CoinCapAsset }` with
`struct CoinCapAsset { price_usd: String }` renamed to wire key
`"priceUsd"`: extracts the string-typed price field. -/
def decodeCoinCapResponse (j : Json) : Except String String :=
  match j with
  | .obj fields =>
      match fields.lookup "data" with
      | none => .error "missing field `data`"
      | some (.obj dfields) =>
          match dfields.lookup "priceUsd" with
          | none => .error "missing field `priceUsd`"
          | some (.str s) => .ok s
          | some _ => .error "invalid type: expected a string"
      | some _ => .error "invalid type: expected struct CoinCapAsset"
  | _ => .error "invalid type: expected struct CoinCapResponse"

/-- serde deserialization of `struct BinancePrice { price: String }`. -/
def decodeBinancePrice (j : Json) : Except String String :=
  match j with
  | .obj fields =>
      match fields.lookup "price" with
      | none => .error "missing field `price`"
      | some (.str s) => .ok s
      | some _ => .error "invalid type: expected a string"
  | _ => .error "invalid type: expected struct BinancePrice"

def coingeckoBaseUrl : String :=
  "https://api.coingecko.com/api/v3/simple/price?ids=solana&vs_currencies=usd"

/-- The CoinGecko request URL: if the `COINGECKO_API_KEY` environment
variable is present its value is appended verbatim
(`format!("urlx_cg_demo_api_keykey", url, api_key)` in the source). -/
def coingeckoUrl : Option String → String
  | none => coingeckoBaseUrl
  | some key => coingeckoBaseUrl ++ "&x_cg_demo_api_key=" ++ key

def coincapUrl : String := "https://api.coincap.io/v2/assets/solana"

def binanceUrl : String := "https://api.binance.com/api/v3/ticker/price?symbol=SOLUSDT"

/-- Shared response handling of `fetch_from_coingecko` after the GET: read
the body (`resp.text()?` comes before the status check), fail on a
non-success status, deserialize `CoinGeckoPrices`, then look up `"usd"`. -/
def cgHandleResponse (o : HttpOutcome) : Except FetchError ℚ :=
  match o with
  | .sendErr msg => .error (.transport msg)
  | .response status body =>
    match body with
    | .error msg => .error (.bodyRead msg)
    | .ok bt =>
      if !statusIsSuccess status then .error (.apiStatus "CoinGecko" status)
      else
        match jsonOfBody bt with
        | .error msg => .error (.jsonError msg)
        | .ok j =>
          match decodeCoinGeckoPrices j with
          | .error msg => .error (.jsonError msg)
          | .ok prices =>
            match hashMapGet prices "usd" with
            | none => .error .priceNotFound
            | some p => .ok p

/-- Adapter `fetch_from_coingecko`: builds the URL (appending the optional API key)
and performs one GET against the network environment `net`. -/
def fetch_from_coingecko (net : String → HttpOutcome) (apiKey : Option String) :
    Except FetchError ℚ :=
  cgHandleResponse (net (coingeckoUrl apiKey))

/-- Adapter `fetch_from_coincap`: one GET to the fixed CoinCap URL; body read before
the status check; deserialize, then `price_usd.parse::<f64>()?`. -/
def fetch_from_coincap (net : String → HttpOutcome) : Except FetchError ℚ :=
  match net coincapUrl with
  | .sendErr msg => .error (.transport msg)
  | .response status body =>
    match body with
    | .error msg => .error (.bodyRead msg)
    | .ok bt =>
      if !statusIsSuccess status then .error (.apiStatus "CoinCap" status)
      else
        match jsonOfBody bt with
        | .error msg => .error (.jsonError msg)
        | .ok j =>
          match decodeCoinCapResponse j with
          | .error msg => .error (.jsonError msg)
          | .ok s =>
            match parseF64 s with
            | .error msg => .error (.numFormat msg)
            | .ok p => .ok p

/-- Adapter `fetch_from_binance`: one GET to the fixed Binance ticker URL; body read
before the status check; deserialize, then `price.parse::<f64>()?`. -/
def fetch_from_binance (net : String → HttpOutcome) : Except FetchError ℚ :=
  match net binanceUrl with
  | .sendErr msg => .error (.transport msg)
  | .response status body =>
    match body with
    | .error msg => .error (.bodyRead msg)
    | .ok bt =>
      if !statusIsSuccess status then .error (.apiStatus "Binance" status)
      else
        match jsonOfBody bt with
        | .error msg => .error (.jsonError msg)
        | .ok j =>
          match decodeBinancePrice j with
          | .error msg => .error (.jsonError msg)
          | .ok s =>
            match parseF64 s with
            | .error msg => .error (.numFormat msg)
            | .ok p => .ok p

/-- The three sources, in the fixed fallback order of the code. -/
inductive Source where
  | coingecko : Source
  | coincap : Source
  | binance : Source
deriving DecidableEq

/-- The ambient world of one run: the result of building the shared HTTP
client, the optional `COINGECKO_API_KEY` environment variable (absent or
non-unicode lookups are `none`), and the network. -/
structure Env where
  clientBuild : Except String Unit
  apiKey : Option String
  net : String → HttpOutcome

/-- Orchestrator `fetch_sol_price`: build the shared client (failure surfaces
immediately), then try CoinGecko, CoinCap, Binance in order, returning the
first success.  The second component is the console trace: each adapter
actually invoked, paired with its outcome (the ✅/⚠️ lines). -/
def fetch_sol_price (env : Env) :
    Except FetchError ℚ × List (Source × Except FetchError ℚ) :=
  match env.clientBuild with
  | .error msg => (.error (.clientSetup msg), [])
  | .ok _ =>
    match fetch_from_coingecko env.net env.apiKey with
    | .ok p => (.ok p, [(.coingecko, .ok p)])
    | .error e1 =>
      match fetch_from_coincap env.net with
      | .ok p => (.ok p, [(.coingecko, .error e1), (.coincap, .ok p)])
      | .error e2 =>
        match fetch_from_binance env.net with
        | .ok p =>
            (.ok p, [(.coingecko, .error e1), (.coincap, .error e2), (.binance, .ok p)])
        | .error e3 =>
            (.error .allFailed,
             [(.coingecko, .error e1), (.coincap, .error e2), (.binance, .error e3)])

/-- The sources `fetch_sol_price` actually invoked, in order. -/
def attempted (env : Env) : List Source :=
  (fetch_sol_price env).2.map Prod.fst

/-- Model of `main`: on `Ok(price)` prints the formatted price and returns `Ok(())`;
on `Err(e)` prints the error and returns it, making the process exit
non-zero. -/
def mainResult (env : Env) : Except FetchError Unit :=
  match (fetch_sol_price env).1 with
  | .ok _ => .ok ()
  | .error e => .error e

/-- The process exit code of a `fn main() -> Result<(), Box<dyn Error>>`:
0 for `Ok`, 1 for `Err` (the Rust `Termination` impl for `Result`). -/
def processExitCode (env : Env) : Nat :=
  match mainResult env with
  | .ok _ => 0
  | .error _ => 1

/-- Round a rational to the nearest integer, ties to even: the rounding
the Rust `format!` with a fixed precision applies to the exact decimal value
being printed. -/
def roundHalfEven (q : ℚ) : ℤ :=
  let n := q.floor
  let frac := q - n
  if frac < 1 / 2 then n
  else if 1 / 2 < frac then n + 1
  else if n % 2 = 0 then n else n + 1

/-- Rendering of a price with two decimals, as in the `${:.2}`
price line and the `test_price_display_format` unit test: round to
hundredths (half to even) and render `intpart.fracpart` zero-padded to two
digits. -/
def fmtFixed2 (x : ℚ) : String :=
  let n := roundHalfEven (x * 100)
  let sign := if n < 0 then "-" else ""
  let a := n.natAbs
  sign ++ toString (a / 100) ++ "." ++ (if a % 100 < 10 then "0" else "") ++ toString (a % 100)

/-- The formatted price string `format!("$price", price)` with two decimals. -/
def formatPrice (x : ℚ) : String := "$" ++ fmtFixed2 x

/-- Body of a well-formed CoinGecko response carrying the given price. -/
def solUsdBody (q : ℚ) : Json := .obj [("solana", .obj [("usd", .num q)])]

/-- Body of a well-formed CoinCap response carrying the given price string. -/
def coincapBody (s : String) : Json := .obj [("data", .obj [("priceUsd", .str s)])]

/-- Body of a well-formed Binance response carrying the given price string. -/
def binanceBody (s : String) : Json := .obj [("price", .str s)]

/-- A 200 response whose body was read and parsed to the given JSON. -/
def okResponse (j : Json) : HttpOutcome := .response 200 (.ok (.jsonOf j))

/-- Run where CoinGecko answers a well-formed body with price 150. -/
def envCGSuccess : Env :=
  ⟨.ok (), none, fun _ => okResponse (solUsdBody 150)⟩

/-- Run where CoinGecko is unreachable and CoinCap answers price "142.37". -/
def envCoinCapSuccess : Env :=
  ⟨.ok (), none, fun u =>
    if u = coincapUrl then okResponse (coincapBody "142.37")
    else .sendErr "connection refused"⟩

/-- Run where only Binance answers, with price string "99.5". -/
def envBinanceSuccess : Env :=
  ⟨.ok (), none, fun u =>
    if u = binanceUrl then okResponse (binanceBody "99.5")
    else .sendErr "connection refused"⟩

/-- Run where the network is entirely down. -/
def envAllFail : Env :=
  ⟨.ok (), none, fun _ => .sendErr "connection refused"⟩

/-- Run where building the shared HTTP client fails. -/
def envClientFail : Env :=
  ⟨.error "builder error", none, fun _ => .sendErr "connection refused"⟩

/-- Run where CoinCap answers a malformed price string "abc" and the other
sources are unreachable. -/
def envCoinCapAbc : Env :=
  ⟨.ok (), none, fun u =>
    if u = coincapUrl then okResponse (coincapBody "abc")
    else .sendErr "connection refused"⟩

/-- Run where CoinGecko answers a well-formed body with the negative price
-1 (nothing in the code rejects it). -/
def envNegPrice : Env :=
  ⟨.ok (), none, fun _ => okResponse (solUsdBody (-1))⟩

/-- C1: with the shared client built, the orchestrator attempts the
adapters in the fixed order CoinGecko, CoinCap, Binance, returns the price
of the first adapter that succeeds, and its trace stops at that adapter,
so no later adapter is ever invoked after a success. -/
theorem fetch_sol_price_first_success (env : Env) (hc : env.clientBuild = .ok ()) :
    (∀ p, fetch_from_coingecko env.net env.apiKey = .ok p →
        fetch_sol_price env = (.ok p, [(.coingecko, .ok p)])) ∧
    (∀ e1 p, fetch_from_coingecko env.net env.apiKey = .error e1 →
        fetch_from_coincap env.net = .ok p →
        fetch_sol_price env = (.ok p, [(.coingecko, .error e1), (.coincap, .ok p)])) ∧
    (∀ e1 e2 p, fetch_from_coingecko env.net env.apiKey = .error e1 →
        fetch_from_coincap env.net = .error e2 →
        fetch_from_binance env.net = .ok p →
        fetch_sol_price env =
          (.ok p, [(.coingecko, .error e1), (.coincap, .error e2), (.binance, .ok p)])) := by
  refine ⟨?_, ?_, ?_⟩ <;> intros <;> simp_all [fetch_sol_price]

/-- Witness for C1: three concrete runs, one per adapter being the first
success; later adapters are absent from the trace. -/
theorem fetch_sol_price_first_success_witness :
    fetch_sol_price envCGSuccess = (.ok 150, [(.coingecko, .ok 150)]) ∧
    fetch_sol_price envCoinCapSuccess =
      (.ok (14237 / 100),
       [(.coingecko, .error (.transport "connection refused")),
        (.coincap, .ok (14237 / 100))]) ∧
    fetch_sol_price envBinanceSuccess =
      (.ok (199 / 2),
       [(.coingecko, .error (.transport "connection refused")),
        (.coincap, .error (.transport "connection refused")),
        (.binance, .ok (199 / 2))]) :=
  ⟨(fetch_sol_price_first_success envCGSuccess rfl).1 150 (by with_unfolding_all rfl),
   (fetch_sol_price_first_success envCoinCapSuccess rfl).2.1
     (.transport "connection refused") (14237 / 100)
     (by with_unfolding_all rfl) (by with_unfolding_all rfl),
   (fetch_sol_price_first_success envBinanceSuccess rfl).2.2
     (.transport "connection refused") (.transport "connection refused") (199 / 2)
     (by with_unfolding_all rfl) (by with_unfolding_all rfl) (by with_unfolding_all rfl)⟩

/-- C2: when all three adapters fail the orchestrator returns the single
aggregate all-sources-failed error (with its message) and the process exit
code is non-zero; moreover every run either yields exactly one price with
exit code 0 or fails entirely with exit code 1 — never a partial result. -/
theorem fetch_sol_price_exhaustion (env : Env) (hc : env.clientBuild = .ok ())
    (e1 e2 e3 : FetchError)
    (h1 : fetch_from_coingecko env.net env.apiKey = .error e1)
    (h2 : fetch_from_coincap env.net = .error e2)
    (h3 : fetch_from_binance env.net = .error e3) :
    (fetch_sol_price env).1 = .error .allFailed ∧
    FetchError.message .allFailed =
      "❌ All API sources failed. Please check your internet connection or try again later." ∧
    processExitCode env = 1 ∧
    (∀ env2 : Env,
      (∃ p, (fetch_sol_price env2).1 = .ok p ∧ processExitCode env2 = 0) ∨
      (∃ e, (fetch_sol_price env2).1 = .error e ∧ processExitCode env2 = 1)) := by
  refine ⟨?_, rfl, ?_, ?_⟩
  · simp [fetch_sol_price, hc, h1, h2, h3]
  · simp [processExitCode, mainResult, fetch_sol_price, hc, h1, h2, h3]
  · intro env2
    rcases hr : (fetch_sol_price env2).1 with e | p
    · exact .inr ⟨e, rfl, by simp [processExitCode, mainResult, hr]⟩
    · exact .inl ⟨p, rfl, by simp [processExitCode, mainResult, hr]⟩

/-- Witness for C2: the all-sources-down run. -/
theorem fetch_sol_price_exhaustion_witness :
    (fetch_sol_price envAllFail).1 = .error .allFailed ∧
    FetchError.message .allFailed =
      "❌ All API sources failed. Please check your internet connection or try again later." ∧
    processExitCode envAllFail = 1 ∧
    (∀ env2 : Env,
      (∃ p, (fetch_sol_price env2).1 = .ok p ∧ processExitCode env2 = 0) ∨
      (∃ e, (fetch_sol_price env2).1 = .error e ∧ processExitCode env2 = 1)) :=
  fetch_sol_price_exhaustion envAllFail rfl
    (.transport "connection refused") (.transport "connection refused")
    (.transport "connection refused")
    (by with_unfolding_all rfl) (by with_unfolding_all rfl) (by with_unfolding_all rfl)

/-- C3: per-adapter errors never escape `fetch_sol_price` individually —
an error result is the terminal exhaustion error or the client-setup
error — and each adapter failure is recorded in the trace and followed by
an attempt of the next adapter. -/
theorem fetch_sol_price_error_propagation (env : Env) :
    (∀ e, (fetch_sol_price env).1 = .error e →
        e = .allFailed ∨ ∃ m, e = .clientSetup m) ∧
    (∀ e1, env.clientBuild = .ok () →
        fetch_from_coingecko env.net env.apiKey = .error e1 →
        (Source.coingecko, Except.error e1) ∈ (fetch_sol_price env).2 ∧
        Source.coincap ∈ attempted env) ∧
    (∀ e1 e2, env.clientBuild = .ok () →
        fetch_from_coingecko env.net env.apiKey = .error e1 →
        fetch_from_coincap env.net = .error e2 →
        (Source.coincap, Except.error e2) ∈ (fetch_sol_price env).2 ∧
        Source.binance ∈ attempted env) := by
  refine ⟨?_, ?_, ?_⟩
  · intro e he
    rcases hcb : env.clientBuild with m | u
    · right
      refine ⟨m, ?_⟩
      have hv : (fetch_sol_price env).1 = .error (.clientSetup m) := by
        simp [fetch_sol_price, hcb]
      exact (Except.error.inj (hv.symm.trans he)).symm
    · left
      rcases hg : fetch_from_coingecko env.net env.apiKey with eg | p
      · rcases hcc : fetch_from_coincap env.net with ec | p
        · rcases hb : fetch_from_binance env.net with eb | p
          · simp [fetch_sol_price, hcb, hg, hcc, hb] at he
            simp [← he]
          · simp [fetch_sol_price, hcb, hg, hcc, hb] at he
        · simp [fetch_sol_price, hcb, hg, hcc] at he
      · simp [fetch_sol_price, hcb, hg] at he
  · intro e1 hcb hg
    rcases hcc : fetch_from_coincap env.net with ec | p
    · rcases hb : fetch_from_binance env.net with eb | p
      · constructor <;> simp [fetch_sol_price, attempted, hcb, hg, hcc, hb]
      · constructor <;> simp [fetch_sol_price, attempted, hcb, hg, hcc, hb]
    · constructor <;> simp [fetch_sol_price, attempted, hcb, hg, hcc]
  · intro e1 e2 hcb hg hcc
    rcases hb : fetch_from_binance env.net with eb | p
    · constructor <;> simp [fetch_sol_price, attempted, hcb, hg, hcc, hb]
    · constructor <;> simp [fetch_sol_price, attempted, hcb, hg, hcc, hb]

/-- Witness for C3: in the all-sources-down run the failures of CoinGecko
and CoinCap are in the trace, the next adapter is attempted each time, and
the escaping error is the terminal one. -/
theorem fetch_sol_price_error_propagation_witness :
    (FetchError.allFailed = .allFailed ∨ ∃ m, FetchError.allFailed = .clientSetup m) ∧
    ((Source.coingecko, Except.error (FetchError.transport "connection refused")) ∈
        (fetch_sol_price envAllFail).2 ∧
      Source.coincap ∈ attempted envAllFail) ∧
    ((Source.coincap, Except.error (FetchError.transport "connection refused")) ∈
        (fetch_sol_price envAllFail).2 ∧
      Source.binance ∈ attempted envAllFail) :=
  ⟨(fetch_sol_price_error_propagation envAllFail).1 .allFailed (by with_unfolding_all rfl),
   (fetch_sol_price_error_propagation envAllFail).2.1 (.transport "connection refused")
     rfl (by with_unfolding_all rfl),
   (fetch_sol_price_error_propagation envAllFail).2.2 (.transport "connection refused")
     (.transport "connection refused") rfl
     (by with_unfolding_all rfl) (by with_unfolding_all rfl)⟩

/-- C4: if building the shared HTTP client fails, `fetch_sol_price`
returns that setup error immediately and no adapter is invoked (the trace
is empty). -/
theorem fetch_sol_price_client_setup (env : Env) (m : String)
    (h : env.clientBuild = .error m) :
    fetch_sol_price env = (.error (.clientSetup m), []) ∧ attempted env = [] := by
  constructor <;> simp [fetch_sol_price, attempted, h]

/-- Witness for C4: a concrete run whose client builder fails. -/
theorem fetch_sol_price_client_setup_witness :
    fetch_sol_price envClientFail = (.error (.clientSetup "builder error"), []) ∧
    attempted envClientFail = [] :=
  fetch_sol_price_client_setup envClientFail "builder error" rfl

/-- Counterexample to C5 as stated: a valid-JSON body missing the asset
key `solana` makes `fetch_from_coingecko` fail with the serde
missing-field error, not with the "Price not found" signal. -/
theorem coingecko_missing_asset_counterexample :
    fetch_from_coingecko (fun _ => okResponse (.obj [])) none =
      .error (.jsonError "missing field `solana`") ∧
    FetchError.message (.jsonError "missing field `solana`") ≠ "Price not found" := by
  constructor
  · with_unfolding_all rfl
  · decide

/-- C5 (amended): a body whose `solana` map lacks the "usd" entry fails
with "Price not found"; a body missing the `solana` key fails with the
serde missing-field error instead; a non-success status fails with the
status code in the error; an invalid-JSON body fails with the parse
error. -/
theorem coingecko_failure_signals (net : String → HttpOutcome) (key : Option String) :
    (∀ fields v m, net (coingeckoUrl key) = okResponse (.obj fields) →
        fields.lookup "solana" = some v →
        decodeUsdMap v = .ok m →
        hashMapGet m "usd" = none →
        fetch_from_coingecko net key = .error .priceNotFound ∧
        FetchError.message .priceNotFound = "Price not found") ∧
    (∀ fields, net (coingeckoUrl key) = okResponse (.obj fields) →
        fields.lookup "solana" = none →
        fetch_from_coingecko net key = .error (.jsonError "missing field `solana`")) ∧
    (∀ status bt, statusIsSuccess status = false →
        net (coingeckoUrl key) = .response status (.ok bt) →
        fetch_from_coingecko net key = .error (.apiStatus "CoinGecko" status) ∧
        FetchError.message (.apiStatus "CoinGecko" status) =
          "CoinGecko API error: " ++ toString status) ∧
    (∀ status d, statusIsSuccess status = true →
        net (coingeckoUrl key) = .response status (.ok (.notJson d)) →
        fetch_from_coingecko net key = .error (.jsonError d)) := by
  refine ⟨?_, ?_, ?_, ?_⟩
  · intro fields v m hnet hsol hdec husd
    refine ⟨?_, rfl⟩
    simp [fetch_from_coingecko, cgHandleResponse, okResponse, hnet, statusIsSuccess,
      jsonOfBody, decodeCoinGeckoPrices, hsol, hdec, husd]
  · intro fields hnet hsol
    simp [fetch_from_coingecko, cgHandleResponse, okResponse, hnet, statusIsSuccess,
      jsonOfBody, decodeCoinGeckoPrices, hsol]
  · intro status bt hs hnet
    refine ⟨?_, rfl⟩
    simp [fetch_from_coingecko, cgHandleResponse, hnet, hs]
  · intro status d hs hnet
    simp [fetch_from_coingecko, cgHandleResponse, hnet, hs, jsonOfBody]

/-- Witness for C5 (amended): four concrete CoinGecko responses, one per
failure class. -/
theorem coingecko_failure_signals_witness :
    (fetch_from_coingecko (fun _ => okResponse (.obj [("solana", .obj [("eur", .num 100)])]))
        none = .error .priceNotFound ∧
      FetchError.message .priceNotFound = "Price not found") ∧
    fetch_from_coingecko (fun _ => okResponse (.obj [("bitcoin", .obj [])])) none =
      .error (.jsonError "missing field `solana`") ∧
    (fetch_from_coingecko (fun _ => .response 429 (.ok (.jsonOf .null))) none =
        .error (.apiStatus "CoinGecko" 429) ∧
      FetchError.message (.apiStatus "CoinGecko" 429) = "CoinGecko API error: " ++ toString 429) ∧
    fetch_from_coingecko (fun _ => .response 200 (.ok (.notJson "expected value"))) none =
      .error (.jsonError "expected value") :=
  ⟨(coingecko_failure_signals (fun _ => okResponse (.obj [("solana", .obj [("eur", .num 100)])]))
      none).1 [("solana", .obj [("eur", .num 100)])] (.obj [("eur", .num 100)]) [("eur", 100)]
      rfl (by with_unfolding_all rfl) (by with_unfolding_all rfl) (by with_unfolding_all rfl),
   (coingecko_failure_signals (fun _ => okResponse (.obj [("bitcoin", .obj [])])) none).2.1
      [("bitcoin", .obj [])] rfl (by with_unfolding_all rfl),
   (coingecko_failure_signals (fun _ => .response 429 (.ok (.jsonOf .null))) none).2.2.1
      429 (.jsonOf .null) (by with_unfolding_all rfl) rfl,
   (coingecko_failure_signals (fun _ => .response 200 (.ok (.notJson "expected value")))
      none).2.2.2 200 "expected value" (by with_unfolding_all rfl) rfl⟩

/-- Counterexample to C6 as stated: for the CoinCap body with
`priceUsd = "abc"` the adapter error is the Rust `ParseFloatError` text
"invalid float literal": it does not contain the offending string "abc"
and is not the phrase "invalid numeric format". -/
theorem coincap_invalid_numeric_counterexample :
    fetch_from_coincap envCoinCapAbc.net = .error (.numFormat "invalid float literal") ∧
    FetchError.message (.numFormat "invalid float literal") = "invalid float literal" ∧
    ¬ ("abc".toList <:+: "invalid float literal".toList) ∧
    "invalid float literal" ≠ "invalid numeric format" := by
  refine ⟨?_, rfl, ?_, ?_⟩
  · with_unfolding_all rfl
  · decide
  · decide

/-- C6 (amended): a CoinCap price string that does not parse as a number
yields the numeric-format error with the Rust text "invalid float literal"
(the offending string is not included), and the orchestrator falls through
to the Binance adapter instead of crashing: Binance is attempted and a
Binance success becomes the final price. -/
theorem coincap_numeric_fallthrough (env : Env) (s : String)
    (hc : env.clientBuild = .ok ())
    (hg : ∃ e, fetch_from_coingecko env.net env.apiKey = .error e)
    (hbody : env.net coincapUrl = okResponse (coincapBody s))
    (hparse : parseF64 s = .error "invalid float literal") :
    fetch_from_coincap env.net = .error (.numFormat "invalid float literal") ∧
    Source.binance ∈ attempted env ∧
    (∀ p, fetch_from_binance env.net = .ok p → (fetch_sol_price env).1 = .ok p) := by
  obtain ⟨e1, hg⟩ := hg
  have hcc : fetch_from_coincap env.net = .error (.numFormat "invalid float literal") := by
    simp [fetch_from_coincap, hbody, okResponse, coincapBody, statusIsSuccess, jsonOfBody,
      decodeCoinCapResponse, hparse]
  refine ⟨hcc, ?_, ?_⟩
  · rcases hb : fetch_from_binance env.net with eb | p <;>
      simp [attempted, fetch_sol_price, hc, hg, hcc, hb]
  · intro p hb
    simp [fetch_sol_price, hc, hg, hcc, hb]

/-- Witness for C6 (amended): the concrete run where CoinGecko is down and
CoinCap answers `priceUsd = "abc"`. -/
theorem coincap_numeric_fallthrough_witness :
    fetch_from_coincap envCoinCapAbc.net = .error (.numFormat "invalid float literal") ∧
    Source.binance ∈ attempted envCoinCapAbc ∧
    (∀ p, fetch_from_binance envCoinCapAbc.net = .ok p →
      (fetch_sol_price envCoinCapAbc).1 = .ok p) :=
  coincap_numeric_fallthrough envCoinCapAbc "abc" rfl
    ⟨.transport "connection refused", by with_unfolding_all rfl⟩
    (by with_unfolding_all rfl) (by with_unfolding_all rfl)

/-- C7: without the `COINGECKO_API_KEY` variable the CoinGecko request is
still sent to the base URL with no extra query parameter and the absent
lookup is not an error (a good response still yields the price); with the
variable set, its value is appended verbatim as a query parameter. -/
theorem coingecko_api_key_optional :
    coingeckoUrl none = coingeckoBaseUrl ∧
    (∀ k, coingeckoUrl (some k) = coingeckoBaseUrl ++ "&x_cg_demo_api_key=" ++ k) ∧
    (∀ net key, fetch_from_coingecko net key = cgHandleResponse (net (coingeckoUrl key))) ∧
    (∀ net q, net coingeckoBaseUrl = okResponse (solUsdBody q) →
        fetch_from_coingecko net none = .ok q) := by
  refine ⟨rfl, fun k => rfl, fun net key => rfl, ?_⟩
  intro net q h
  have hv : fetch_from_coingecko net none = cgHandleResponse (okResponse (solUsdBody q)) := by
    simp [fetch_from_coingecko, coingeckoUrl, h]
  rw [hv]
  with_unfolding_all rfl

/-- Witness for C7: a concrete network on which the request without the
key succeeds with price 150. -/
theorem coingecko_api_key_optional_witness :
    fetch_from_coingecko (fun _ => okResponse (solUsdBody 150)) none = .ok 150 :=
  coingecko_api_key_optional.2.2.2 (fun _ => okResponse (solUsdBody 150)) 150 rfl

/-- C8: the price 123.456789 formats to exactly the string "$123.46" —
two decimals behind the leading currency symbol. -/
theorem price_format_two_decimals : formatPrice (123.456789 : ℚ) = "$123.46" := by
  with_unfolding_all rfl

/-- Counterexample to C9 as stated: nothing in the code rejects a negative
price, so a CoinGecko body encoding -1 makes the whole fetch succeed with
the negative price -1. -/
theorem price_nonneg_counterexample :
    (fetch_sol_price envNegPrice).1 = .ok (-1) ∧ ((-1 : ℚ) < 0) := by
  constructor
  · with_unfolding_all rfl
  · norm_num

/-- C9 (amended): the fetch returns exactly a value decoded from some
adapter body, with no sign check of its own; whenever every adapter yields
only non-negative values, the final price is non-negative. -/
theorem price_nonneg_conditional (env : Env)
    (h1 : ∀ p, fetch_from_coingecko env.net env.apiKey = .ok p → 0 ≤ p)
    (h2 : ∀ p, fetch_from_coincap env.net = .ok p → 0 ≤ p)
    (h3 : ∀ p, fetch_from_binance env.net = .ok p → 0 ≤ p) :
    ∀ p, (fetch_sol_price env).1 = .ok p → 0 ≤ p := by
  intro p hp
  rcases hcb : env.clientBuild with m | u
  · simp [fetch_sol_price, hcb] at hp
  · rcases hg : fetch_from_coingecko env.net env.apiKey with e1 | q
    · rcases hcc : fetch_from_coincap env.net with e2 | q
      · rcases hb : fetch_from_binance env.net with e3 | q
        · simp [fetch_sol_price, hcb, hg, hcc, hb] at hp
        · simp [fetch_sol_price, hcb, hg, hcc, hb] at hp
          cases hp
          exact h3 _ hb
      · simp [fetch_sol_price, hcb, hg, hcc] at hp
        cases hp
        exact h2 _ hcc
    · simp [fetch_sol_price, hcb, hg] at hp
      cases hp
      exact h1 _ hg

/-- Witness for C9 (amended): the run whose only answering source encodes
150, a non-negative value. -/
theorem price_nonneg_conditional_witness :
    (fetch_sol_price envCGSuccess).1 = .ok 150 ∧ 0 ≤ (150 : ℚ) :=
  ⟨by with_unfolding_all rfl,
   price_nonneg_conditional envCGSuccess
     (fun p hp => by
       have h : Except.ok (150 : ℚ) = Except.ok p :=
         (show fetch_from_coingecko envCGSuccess.net envCGSuccess.apiKey = Except.ok 150 by
           with_unfolding_all rfl).symm.trans hp
       exact (Except.ok.inj h) ▸ (by norm_num : (0 : ℚ) ≤ 150))
     (fun p hp => Except.noConfusion
       ((show fetch_from_coincap envCGSuccess.net =
           Except.error (FetchError.jsonError "missing field `data`") by
         with_unfolding_all rfl).symm.trans hp))
     (fun p hp => Except.noConfusion
       ((show fetch_from_binance envCGSuccess.net =
           Except.error (FetchError.jsonError "missing field `price`") by
         with_unfolding_all rfl).symm.trans hp))
     150 (by with_unfolding_all rfl)⟩

/-- C10: in every adapter the body is read before the status is checked,
so a body-read failure surfaces as the body-read error whatever the status
(2xx or not), and the status-code error arises only for responses whose
body was successfully read. -/
theorem body_read_before_status_check :
    (∀ net key status m, net (coingeckoUrl key) = .response status (.error m) →
        fetch_from_coingecko net key = .error (.bodyRead m)) ∧
    (∀ net status m, net coincapUrl = .response status (.error m) →
        fetch_from_coincap net = .error (.bodyRead m)) ∧
    (∀ net status m, net binanceUrl = .response status (.error m) →
        fetch_from_binance net = .error (.bodyRead m)) ∧
    (∀ net key src status, fetch_from_coingecko net key = .error (.apiStatus src status) →
        ∃ bt, net (coingeckoUrl key) = .response status (.ok bt)) ∧
    (∀ net src status, fetch_from_coincap net = .error (.apiStatus src status) →
        ∃ bt, net coincapUrl = .response status (.ok bt)) ∧
    (∀ net src status, fetch_from_binance net = .error (.apiStatus src status) →
        ∃ bt, net binanceUrl = .response status (.ok bt)) := by
  refine ⟨?_, ?_, ?_, ?_, ?_, ?_⟩
  · intro net key status m h
    simp [fetch_from_coingecko, cgHandleResponse, h]
  · intro net status m h
    simp [fetch_from_coincap, h]
  · intro net status m h
    simp [fetch_from_binance, h]
  · intro net key src status h
    rcases ho : net (coingeckoUrl key) with m | ⟨status2, body⟩
    · simp [fetch_from_coingecko, cgHandleResponse, ho] at h
    · rcases body with m | bt
      · simp [fetch_from_coingecko, cgHandleResponse, ho] at h
      · by_cases hs : statusIsSuccess status2
        · exfalso
          rcases hj : jsonOfBody bt with d | j
          · simp [fetch_from_coingecko, cgHandleResponse, ho, hs, hj] at h
          · rcases hd : decodeCoinGeckoPrices j with d | prices
            · simp [fetch_from_coingecko, cgHandleResponse, ho, hs, hj, hd] at h
            · rcases hu : hashMapGet prices "usd" with _ | p <;>
                simp [fetch_from_coingecko, cgHandleResponse, ho, hs, hj, hd, hu] at h
        · have h2 : FetchError.apiStatus "CoinGecko" status2 = .apiStatus src status := by
            have := (show fetch_from_coingecko net key =
                .error (.apiStatus "CoinGecko" status2) by
              simp [fetch_from_coingecko, cgHandleResponse, ho, hs]).symm.trans h
            exact Except.error.inj this
          exact ⟨bt, by rw [(FetchError.apiStatus.inj h2).2]⟩
  · intro net src status h
    rcases ho : net coincapUrl with m | ⟨status2, body⟩
    · simp [fetch_from_coincap, ho] at h
    · rcases body with m | bt
      · simp [fetch_from_coincap, ho] at h
      · by_cases hs : statusIsSuccess status2
        · exfalso
          rcases hj : jsonOfBody bt with d | j
          · simp [fetch_from_coincap, ho, hs, hj] at h
          · rcases hd : decodeCoinCapResponse j with d | s
            · simp [fetch_from_coincap, ho, hs, hj, hd] at h
            · rcases hp : parseF64 s with d | p <;>
                simp [fetch_from_coincap, ho, hs, hj, hd, hp] at h
        · have h2 : FetchError.apiStatus "CoinCap" status2 = .apiStatus src status := by
            have := (show fetch_from_coincap net =
                .error (.apiStatus "CoinCap" status2) by
              simp [fetch_from_coincap, ho, hs]).symm.trans h
            exact Except.error.inj this
          exact ⟨bt, by rw [(FetchError.apiStatus.inj h2).2]⟩
  · intro net src status h
    rcases ho : net binanceUrl with m | ⟨status2, body⟩
    · simp [fetch_from_binance, ho] at h
    · rcases body with m | bt
      · simp [fetch_from_binance, ho] at h
      · by_cases hs : statusIsSuccess status2
        · exfalso
          rcases hj : jsonOfBody bt with d | j
          · simp [fetch_from_binance, ho, hs, hj] at h
          · rcases hd : decodeBinancePrice j with d | s
            · simp [fetch_from_binance, ho, hs, hj, hd] at h
            · rcases hp : parseF64 s with d | p <;>
                simp [fetch_from_binance, ho, hs, hj, hd, hp] at h
        · have h2 : FetchError.apiStatus "Binance" status2 = .apiStatus src status := by
            have := (show fetch_from_binance net =
                .error (.apiStatus "Binance" status2) by
              simp [fetch_from_binance, ho, hs]).symm.trans h
            exact Except.error.inj this
          exact ⟨bt, by rw [(FetchError.apiStatus.inj h2).2]⟩

/-- Witness for C10: a body-read failure on a non-2xx response surfaces as
the body-read error in each adapter, and a concrete status error implies
the body was read. -/
theorem body_read_before_status_check_witness :
    fetch_from_coingecko (fun _ => .response 500 (.error "connection reset")) none =
      .error (.bodyRead "connection reset") ∧
    fetch_from_coincap (fun _ => .response 500 (.error "connection reset")) =
      .error (.bodyRead "connection reset") ∧
    fetch_from_binance (fun _ => .response 500 (.error "connection reset")) =
      .error (.bodyRead "connection reset") ∧
    (∃ bt, (fun _ => HttpOutcome.response 429 (.ok (.jsonOf .null)) : String → HttpOutcome)
        (coingeckoUrl none) = .response 429 (.ok bt)) :=
  ⟨body_read_before_status_check.1 (fun _ => .response 500 (.error "connection reset"))
      none 500 "connection reset" rfl,
   body_read_before_status_check.2.1 (fun _ => .response 500 (.error "connection reset"))
      500 "connection reset" rfl,
   body_read_before_status_check.2.2.1 (fun _ => .response 500 (.error "connection reset"))
      500 "connection reset" rfl,
   body_read_before_status_check.2.2.2.1 (fun _ => .response 429 (.ok (.jsonOf .null)))
      none "CoinGecko" 429 (by with_unfolding_all rfl)⟩
